import Mathlib

/-!
Verification of the nanocl interactive console-attach session
(`exec_vm_attach`, src/bin/nanocl/src/commands/vm.rs lines 300-396)
against its natural-language specification.

The attach session is embedded shallowly: the dispatcher loop becomes a
recursive function over the finite inbound frame stream, the spawned
heartbeat / relay / input-reader tasks become functions describing the
writes each task performs, and the termios acquire/restore sequence is
recorded as the list of configurations successively applied via
`tcsetattr`.
-/

namespace Nanocl

/-! ## Data model -/

/-- Byte sequences, the payload type of transport frames. -/
abbrev Bytes := List UInt8

/-- Stream discriminator of an Output Record (`OutputKind` in
`nanocld_client::stubs::cargo`; variants matched at vm.rs:367-380,
the catch-all arm standing for the reserved kinds). -/
inductive OutputKind
  | stdOut
  | stdErr
  | console
  | other
  deriving DecidableEq, Repr

/-- An Output Record (`OutputLog`): stream discriminator plus data bytes. -/
structure OutputLog where
  kind : OutputKind
  data : Bytes
  deriving DecidableEq, Repr

/-- Inbound transport frames (`ntex::ws::Frame`), as discriminated by the
dispatcher match at vm.rs:361-391. -/
inductive Frame
  | binary (payload : Bytes)
  | text (payload : Bytes)
  | ping (payload : Bytes)
  | pong (payload : Bytes)
  | close
  | other
  deriving DecidableEq, Repr

/-- Outbound transport messages (`ntex::ws::Message`) as produced by the
session: Text keystrokes, Ping heartbeats, Pong replies. -/
inductive Message
  | text (payload : Bytes)
  | ping (payload : Bytes)
  | pong (payload : Bytes)
  deriving DecidableEq, Repr

/-- A transport receive error. The `payload` field models whether the error
is "accompanied by an explicit error payload" in the sense of the error
taxonomy of the spec; the dispatcher at vm.rs:389 never inspects it. -/
structure TransportError where
  payload : Option Bytes
  deriving DecidableEq, Repr

/-! ## Output Envelope Codec -/

/-- Decode failure of the Output Envelope Codec. -/
inductive DecodeError
  | malformed
  deriving DecidableEq, Repr

/-- Modelled from the spec: the kind discriminator of the wire encoding of
an Output Record. The concrete deserializer (`serde_json` applied to
`OutputLog`, declared in the `nanocld_client` crate) is not under src/;
the spec states the codec decodes a binary payload into a kind drawn from
{StandardOutput, StandardError, Console, Other-reserved} plus data bytes.
We fix a concrete envelope: a leading tag byte 0-3 selects the kind. -/
def decodeKind (b : UInt8) : Option OutputKind :=
  if b.toNat = 0 then some .stdOut
  else if b.toNat = 1 then some .stdErr
  else if b.toNat = 2 then some .console
  else if b.toNat = 3 then some .other
  else none

/-- Modelled from the spec: `decode(bytes) -> Result<OutputRecord, DecodeError>`,
a pure total function. A well-formed record is a recognized tag byte
followed by the data bytes; anything else fails with a Decode error. -/
def decode (bs : Bytes) : Except DecodeError OutputLog :=
  match bs with
  | [] => .error .malformed
  | b :: rest =>
    match decodeKind b with
    | some k => .ok ⟨k, rest⟩
    | none => .error .malformed

/-- Well-formedness of a wire-encoded Output Record, stated independently of
`decode`: nonempty, with a recognized leading tag byte. -/
def wellFormedRecord (bs : Bytes) : Bool :=
  match bs with
  | [] => false
  | b :: _ => b.toNat < 4

/-! ## Terminal Mode Guard -/

/-- The `ICANON` local-mode flag bit (termios). -/
def ICANON : Nat := 2

/-- The `ECHO` local-mode flag bit (termios). -/
def ECHO : Nat := 8

/-- A complete terminal configuration (`termios::Termios`): all attribute
words, the line discipline, the control characters and the speeds. Flag
words are 32-bit values represented as naturals. -/
structure Termios where
  c_iflag : Nat
  c_oflag : Nat
  c_cflag : Nat
  c_lflag : Nat
  c_line : Nat
  c_cc : List Nat
  c_ispeed : Nat
  c_ospeed : Nat
  deriving DecidableEq, Repr

/-- The raw-mode transformation applied at vm.rs:325:
`termios.c_lflag &= !(ICANON | ECHO)`, every other attribute untouched. -/
def applyRawMode (t : Termios) : Termios :=
  { t with c_lflag := t.c_lflag &&& (0xFFFFFFFF ^^^ (ICANON ||| ECHO)) }

/-! ## Inbound Dispatcher -/

/-- Observable local effects accumulated by the dispatcher loop: bytes
written to the local stdout and stderr streams, flush counts of each
stream, and the frames the dispatcher itself wrote directly to its clone
of the transport sink (the Pong replies of vm.rs:383-388). -/
structure SessionEffects where
  stdoutData : Bytes
  stderrData : Bytes
  stdoutFlushes : Nat
  stderrFlushes : Nat
  sinkWrites : List Message
  deriving DecidableEq, Repr

/-- The effects at session start: nothing written, nothing flushed. -/
def effectsInit : SessionEffects := ⟨[], [], 0, 0, []⟩

/-- Errors `exec_vm_attach` can propagate out of its dispatcher loop via
`?`: a decode failure (vm.rs:364-366) or a failed Pong send
(vm.rs:384-387, mapped into an io error). -/
inductive AttachError
  | decodeFail (e : DecodeError)
  | pongSend
  deriving DecidableEq, Repr

/-- One iteration of the dispatcher match (vm.rs:361-391) on a successfully
received frame. `pongOk` says whether the sink accepts the Pong
sends of the dispatcher. Binary frames are decoded and routed by kind — note the
StdErr arm writes to stderr but flushes stdout, exactly as vm.rs:372-375
does; Ping frames are answered with a Pong written directly to the sink;
Text, Pong, Close and any other variants fall into the catch-all and are
ignored. -/
def dispatchFrame (pongOk : Bool) (eff : SessionEffects) (fr : Frame) :
    Except AttachError SessionEffects :=
  match fr with
  | .binary payload =>
    match decode payload with
    | .error e => .error (.decodeFail e)
    | .ok out =>
      match out.kind with
      | .stdOut =>
        .ok { eff with
          stdoutData := eff.stdoutData ++ out.data
          stdoutFlushes := eff.stdoutFlushes + 1 }
      | .stdErr =>
        .ok { eff with
          stderrData := eff.stderrData ++ out.data
          stdoutFlushes := eff.stdoutFlushes + 1 }
      | .console =>
        .ok { eff with
          stdoutData := eff.stdoutData ++ out.data
          stdoutFlushes := eff.stdoutFlushes + 1 }
      | .other => .ok eff
  | .ping p =>
    if pongOk then
      .ok { eff with sinkWrites := eff.sinkWrites ++ [.pong p] }
    else
      .error .pongSend
  | _ => .ok eff

/-- The dispatcher loop `while let Some(frame) = rx.next().await`
(vm.rs:360-392) over the finite inbound stream. End-of-stream and any
receive error (`Err(_) => break`) end the loop with no error; a frame
whose handling fails ends the loop carrying that error (the `?` early
return). Returns the accumulated effects and the error, if any. -/
def dispatchLoop (pongOk : Bool) (eff : SessionEffects) :
    List (Except TransportError Frame) → SessionEffects × Option AttachError
  | [] => (eff, none)
  | .error _ :: _ => (eff, none)
  | .ok fr :: rest =>
    match dispatchFrame pongOk eff fr with
    | .error e => (eff, some e)
    | .ok eff' => dispatchLoop pongOk eff' rest

/-! ## Session Orchestrator (`exec_vm_attach` main path) -/

/-- The observable outcome of one attach invocation: the successive terminal
configurations applied via `tcsetattr`, the local effects of the dispatcher,
and the returned result (`none` for `Ok(())`). -/
structure AttachTrace where
  tcsetattrCalls : List Termios
  effects : SessionEffects
  result : Option AttachError
  deriving DecidableEq, Repr

/-- The main path of `exec_vm_attach` (vm.rs:300-396) after the connection
is established: capture the current termios `t`, save `original := t`
verbatim, apply raw mode via `tcsetattr`, run the dispatcher loop, and —
only when the loop ended without error — reapply the original settings
(vm.rs:394) before returning; when the loop propagates an error via `?`,
the function returns at once and the restoring `tcsetattr` is never
executed. -/
def attachRun (t : Termios) (pongOk : Bool)
    (frames : List (Except TransportError Frame)) : AttachTrace :=
  let original := t
  let modified := applyRawMode t
  let (eff, err) := dispatchLoop pongOk effectsInit frames
  match err with
  | some e => ⟨[modified], eff, some e⟩
  | none => ⟨[modified, original], eff, none⟩

/-! ## Local Input Reader -/

/-- Outcome of one iteration of the input-reader thread loop
(vm.rs:334-347). -/
inductive ReaderOutcome
  | enqueued (m : Message)
  | panicked
  | stopped
  deriving DecidableEq, Repr

/-- Rust `std::str::from_utf8` restricted to the single-byte buffers the reader
passes it: a lone byte is valid UTF-8 exactly when it is below 0x80. -/
def utf8DecodeByte (b : UInt8) : Option Bytes :=
  if b.toNat < 0x80 then some [b] else none

/-- One iteration of the input-reader thread (vm.rs:334-347): a failed
stdin read (`input = none`) prints a message and returns, stopping the
thread; on a read byte, `std::str::from_utf8(&input).unwrap()` panics when
the byte is not valid UTF-8 on its own, and otherwise the byte is
enqueued as a Text message into the outbound queue. -/
def readerIter (input : Option UInt8) : ReaderOutcome :=
  match input with
  | none => .stopped
  | some b =>
    match utf8DecodeByte b with
    | some s => .enqueued (.text s)
    | none => .panicked

/-- The outbound queue contents produced by the input-reader thread from a
sequence of successfully read bytes: the thread is the sole producer
(`tx` is moved into it at vm.rs:334), and it stops at the first panic. -/
def inputQueue : List UInt8 → List Message
  | [] => []
  | b :: rest =>
    match readerIter (some b) with
    | .enqueued m => m :: inputQueue rest
    | _ => []

/-! ## Heartbeat Emitter and Outbound Relay -/

/-- The writes the heartbeat task (vm.rs:312-319) performs over `ticks`
elapsed intervals: one empty Ping per tick, sent directly on its own
clone of `conn.sink()`. -/
def heartbeatRun (ticks : Nat) : List Message :=
  List.replicate ticks (.ping [])

/-- The relay task (vm.rs:350-356): drain the queue, writing each message to
its clone of the sink; `failAt = some k` makes the k-th send fail, upon
which the task returns silently (`if sink.send(msg).await.is_err() {
return }`). Returns the messages actually written and whether a write
failed. -/
def relayRun : Option Nat → List Message → List Message × Bool
  | _, [] => ([], false)
  | some 0, _ :: _ => ([], true)
  | some (k + 1), m :: rest =>
    let r := relayRun (some k) rest
    (m :: r.1, r.2)
  | none, m :: rest =>
    let r := relayRun none rest
    (m :: r.1, r.2)

/-- The three tasks that hold a clone of the transport sink. -/
inductive Component
  | heartbeat
  | relay
  | dispatcher
  deriving DecidableEq, Repr

/-- Every write performed on the send half of the transport during one session
execution, tagged by the task that performed it: the direct Pings of the heartbeat
task, the drained queue messages of the relay, and the direct Pong
replies of the dispatcher. (The order between tasks is a linearization; which
component performs which write is what the tagging records.) -/
def sessionWrites (ticks : Nat) (keystrokes : List UInt8)
    (relayFailAt : Option Nat) (pongOk : Bool)
    (frames : List (Except TransportError Frame)) :
    List (Component × Message) :=
  (heartbeatRun ticks).map (fun m => (Component.heartbeat, m)) ++
  ((relayRun relayFailAt (inputQueue keystrokes)).1).map
    (fun m => (Component.relay, m)) ++
  ((dispatchLoop pongOk effectsInit frames).1.sinkWrites).map
    (fun m => (Component.dispatcher, m))

/-! ## Helper lemmas -/

/-- A concrete initial terminal configuration used in the concrete
evaluations: its local-mode word has both `ICANON` and `ECHO` set, so the
raw-mode transformation genuinely changes it. -/
def termiosSample : Termios := ⟨1, 2, 3, 0xFFFF, 0, [3, 28], 9600, 9600⟩

theorem heartbeatRun_ping (n : Nat) :
    ∀ m ∈ heartbeatRun n, m = Message.ping [] :=
  fun _ hm => List.eq_of_mem_replicate hm

theorem relayRun_fst_take (k : Nat) (q : List Message) :
    (relayRun (some k) q).1 = q.take k := by
  induction q generalizing k with
  | nil => cases k <;> rfl
  | cons m rest ih =>
    cases k with
    | zero => rfl
    | succ k => simp [relayRun, ih k]

theorem relayRun_subset (q : List Message) :
    ∀ (fa : Option Nat) (m : Message), m ∈ (relayRun fa q).1 → m ∈ q := by
  induction q with
  | nil =>
    intro fa m h
    rcases fa with _ | k
    · simp [relayRun] at h
    · cases k <;> simp [relayRun] at h
  | cons a rest ih =>
    intro fa m h
    rcases fa with _ | k
    · simp only [relayRun, List.mem_cons] at h
      rcases h with h1 | h2
      · exact h1 ▸ List.mem_cons_self a rest
      · exact List.mem_cons_of_mem a (ih none m h2)
    · cases k with
      | zero => simp [relayRun] at h
      | succ k =>
        simp only [relayRun, List.mem_cons] at h
        rcases h with h1 | h2
        · exact h1 ▸ List.mem_cons_self a rest
        · exact List.mem_cons_of_mem a (ih (some k) m h2)

theorem inputQueue_text (ks : List UInt8) :
    ∀ m ∈ inputQueue ks, ∃ b, m = Message.text [b] := by
  induction ks with
  | nil => intro m h; simp [inputQueue] at h
  | cons b rest ih =>
    intro m h
    by_cases hb : b.toNat < 0x80
    · have hr : readerIter (some b) = .enqueued (.text [b]) := by
        simp [readerIter, utf8DecodeByte, hb]
      simp only [inputQueue, hr, List.mem_cons] at h
      rcases h with h1 | h2
      · exact ⟨b, h1⟩
      · exact ih m h2
    · have hr : readerIter (some b) = .panicked := by
        simp [readerIter, utf8DecodeByte, hb]
      simp [inputQueue, hr] at h

theorem dispatchFrame_sinkWrites (p : Bool) (eff eff' : SessionEffects)
    (fr : Frame) (h : dispatchFrame p eff fr = .ok eff') :
    eff'.sinkWrites = eff.sinkWrites ∨
    ∃ pl, eff'.sinkWrites = eff.sinkWrites ++ [Message.pong pl] := by
  cases fr with
  | binary payload =>
    simp only [dispatchFrame] at h
    cases hd : decode payload with
    | error e => rw [hd] at h; exact absurd h (by simp)
    | ok out =>
      rw [hd] at h
      rcases out with ⟨k, d⟩
      cases k <;> simp_all <;> subst h <;> left <;> rfl
  | ping pl =>
    simp only [dispatchFrame] at h
    cases p with
    | false => exact absurd h (by simp)
    | true =>
      simp only [if_true] at h
      right
      exact ⟨pl, by injection h with h; exact h ▸ rfl⟩
  | text pl => left; injection h with h; exact h ▸ rfl
  | pong pl => left; injection h with h; exact h ▸ rfl
  | close => left; injection h with h; exact h ▸ rfl
  | other => left; injection h with h; exact h ▸ rfl

theorem dispatchLoop_sinkWrites_pong (p : Bool)
    (fs : List (Except TransportError Frame)) :
    ∀ (eff : SessionEffects),
    (∀ m ∈ eff.sinkWrites, ∃ pl, m = Message.pong pl) →
    ∀ m ∈ (dispatchLoop p eff fs).1.sinkWrites, ∃ pl, m = Message.pong pl := by
  induction fs with
  | nil => intro eff h m hm; exact h m hm
  | cons f rest ih =>
    intro eff h m hm
    cases f with
    | error e => exact h m hm
    | ok fr =>
      cases hdf : dispatchFrame p eff fr with
      | error e =>
        simp only [dispatchLoop, hdf] at hm
        exact h m hm
      | ok eff' =>
        simp only [dispatchLoop, hdf] at hm
        refine ih eff' ?_ m hm
        intro m' hm'
        rcases dispatchFrame_sinkWrites p eff eff' fr hdf with heq | ⟨pl, heq⟩
        · exact h m' (heq ▸ hm')
        · rw [heq] at hm'
          rcases List.mem_append.mp hm' with h1 | h2
          · exact h m' h1
          · exact ⟨pl, List.mem_singleton.mp h2⟩

theorem attachRun_result_eq (t : Termios) (p : Bool)
    (fs : List (Except TransportError Frame)) :
    (attachRun t p fs).result = (dispatchLoop p effectsInit fs).2 := by
  unfold attachRun
  rcases hd : dispatchLoop p effectsInit fs with ⟨eff, err⟩
  cases err <;> simp


/-! ## Claims -/

/-- Claim C1: the claim states that the saved terminal configuration is
reapplied via `tcsetattr` exactly once on every exit path of the attach
session. The code violates this: on a decode error the `?` at vm.rs:366
returns before the restoring `tcsetattr` at vm.rs:394 ever runs. At the
concrete failing input — a single inbound Binary frame whose payload is
not a well-formed Output Record — attach returns the Decode error and
the only configuration ever applied is the raw-mode one; the saved
original configuration is never reapplied. -/
theorem c1_decode_error_skips_restore :
    (attachRun termiosSample true [.ok (.binary [9])]).result
      = some (.decodeFail .malformed) ∧
    termiosSample ∉ (attachRun termiosSample true [.ok (.binary [9])]).tcsetattrCalls ∧
    (attachRun termiosSample true [.ok (.binary [9])]).tcsetattrCalls
      = [applyRawMode termiosSample] := by decide

/-- Claim C2 counterexample: the claim states that every outbound frame is
written to the send half by the Outbound Relay alone. In the execution
with one elapsed heartbeat tick, no keystrokes and no inbound frames, the
session writes exactly one Ping, and the component that writes it is the
heartbeat task (on its own clone of the sink), not the relay. -/
theorem c2_heartbeat_writes_directly :
    sessionWrites 1 [] none true [] = [(.heartbeat, .ping [])] ∧
    Component.heartbeat ≠ Component.relay := by decide

/-- Claim C2 amended: outbound frames are written by three tasks, each
holding its own clone of the cloneable sink: the heartbeat task writes
the empty-payload Pings directly, the relay writes exactly the queued
single-byte Text keystrokes (the input-reader thread being the sole
producer of the queue), and the dispatcher writes its Pong replies
directly. -/
theorem c2_writers_by_component (ticks : Nat) (ks : List UInt8)
    (fa : Option Nat) (p : Bool) (fs : List (Except TransportError Frame))
    (c : Component) (m : Message)
    (h : (c, m) ∈ sessionWrites ticks ks fa p fs) :
    (c = .heartbeat → m = .ping []) ∧
    (c = .relay → ∃ b, m = .text [b]) ∧
    (c = .dispatcher → ∃ pl, m = .pong pl) := by
  unfold sessionWrites at h
  rcases List.mem_append.mp h with h12 | h3
  · rcases List.mem_append.mp h12 with h1 | h2
    · rcases List.mem_map.mp h1 with ⟨m2, hm2, heq⟩
      injection heq with hc hm
      subst hc; subst hm
      refine ⟨fun _ => heartbeatRun_ping ticks m2 hm2, ?_, ?_⟩
      · intro hcon; exact Component.noConfusion hcon
      · intro hcon; exact Component.noConfusion hcon
    · rcases List.mem_map.mp h2 with ⟨m2, hm2, heq⟩
      injection heq with hc hm
      subst hc; subst hm
      refine ⟨?_, fun _ => ?_, ?_⟩
      · intro hcon; exact Component.noConfusion hcon
      · exact inputQueue_text ks m2 (relayRun_subset (inputQueue ks) fa m2 hm2)
      · intro hcon; exact Component.noConfusion hcon
  · rcases List.mem_map.mp h3 with ⟨m2, hm2, heq⟩
    injection heq with hc hm
    subst hc; subst hm
    refine ⟨?_, ?_, fun _ => ?_⟩
    · intro hcon; exact Component.noConfusion hcon
    · intro hcon; exact Component.noConfusion hcon
    · exact dispatchLoop_sinkWrites_pong p fs effectsInit (by simp [effectsInit]) m2 hm2

/-- Claim C2 amended, witness: the heartbeat write of the execution with one
tick is the empty Ping. -/
theorem c2_writers_by_component_witness :
    ((Component.heartbeat, Message.ping []) ∈ sessionWrites 1 [] none true []) ∧
    Message.ping [] = Message.ping [] :=
  ⟨by decide,
   (c2_writers_by_component 1 [] none true [] .heartbeat (.ping []) (by decide)).1 rfl⟩

/-- Claim C3 counterexample: the claim states that on a Close frame the
dispatcher transitions to Closed and stops its loop. In the code the
Close frame falls into the catch-all arm (vm.rs:390) and is ignored: with
the inbound stream [Close, Binary(StdOut "x")], the byte is written to
the local stdout, so the loop was still running after the Close frame. -/
theorem c3_close_frame_ignored :
    (dispatchLoop true effectsInit
      [.ok .close, .ok (.binary [0, 120])]).1.stdoutData = [120] ∧
    (dispatchLoop true effectsInit [.ok .close]).1.stdoutData = [] := by decide

/-- Claim C3 amended: a Close frame is ignored by the dispatcher, which
remains Running rather than transitioning to Closed: processing a stream
beginning with a Close frame is identical to processing the remainder of
the stream, as if the Close frame had not occurred. -/
theorem c3_close_is_skipped (p : Bool) (eff : SessionEffects)
    (rest : List (Except TransportError Frame)) :
    dispatchLoop p eff (.ok .close :: rest) = dispatchLoop p eff rest := rfl

/-- Claim C4 counterexample: the claim states that a relay write failure is
reported to the orchestrator and attach returns a Transport-Write error.
In the code the relay task merely returns (vm.rs:353) and nothing joins
it: with one queued keystroke and the very first write failing, the
write failure did occur, yet attach (whose result depends only on the
dispatcher loop) returns success. -/
theorem c4_write_failure_not_surfaced :
    (relayRun (some 0) (inputQueue [97])).2 = true ∧
    (relayRun (some 0) (inputQueue [97])).1 = [] ∧
    (attachRun termiosSample true []).result = none := by decide

/-- Claim C4 amended: on a write failure the relay stops silently — the
failing message and everything after it are never written (the writes
performed are exactly the queue prefix before the failure) — and the
result attach returns is determined solely by the dispatcher loop, so a
relay write failure never surfaces to the caller. -/
theorem c4_relay_failure_silent (k : Nat) (q : List Message) (t : Termios)
    (p : Bool) (fs : List (Except TransportError Frame)) :
    (relayRun (some k) q).1 = q.take k ∧
    (attachRun t p fs).result = (dispatchLoop p effectsInit fs).2 :=
  ⟨relayRun_fst_take k q, attachRun_result_eq t p fs⟩

/-- Claim C5: the claim states that for a StandardError record the
dispatcher writes the data to the local stderr stream and flushes the
stderr stream, writing nothing to stdout. The code (vm.rs:372-375)
writes the data to stderr but then flushes stdout: at the concrete
input — one Binary frame decoding to a StandardError record with data
"x" — the data lands on stderr and nothing on stdout, yet the stderr
flush count stays zero while stdout is flushed once. -/
theorem c5_stderr_arm_flushes_stdout :
    ((attachRun termiosSample true [.ok (.binary [1, 120])]).effects).stderrData
      = [120] ∧
    ((attachRun termiosSample true [.ok (.binary [1, 120])]).effects).stdoutData
      = [] ∧
    ((attachRun termiosSample true [.ok (.binary [1, 120])]).effects).stderrFlushes
      = 0 ∧
    ((attachRun termiosSample true [.ok (.binary [1, 120])]).effects).stdoutFlushes
      = 1 := by decide

/-- Claim C6: for every byte sequence that is not a well-formed Output
Record, decode fails with the Decode error (and, being a total function,
never panics); on such a frame the dispatcher stops at once with the
Decode error — the remaining frames are never processed, so the failure
is session-fatal, not skipped per-message — and attach surfaces that
Decode error to its caller. -/
theorem c6_decode_error_is_fatal (bs : Bytes)
    (h : wellFormedRecord bs = false) :
    decode bs = .error .malformed ∧
    (∀ (p : Bool) (eff : SessionEffects)
       (rest : List (Except TransportError Frame)),
      dispatchLoop p eff (.ok (.binary bs) :: rest)
        = (eff, some (.decodeFail .malformed))) ∧
    (∀ (t : Termios) (p : Bool) (rest : List (Except TransportError Frame)),
      (attachRun t p (.ok (.binary bs) :: rest)).result
        = some (.decodeFail .malformed)) := by
  have hd : decode bs = .error .malformed := by
    cases bs with
    | nil => rfl
    | cons b rest =>
      have hb : ¬ b.toNat < 4 := by simpa [wellFormedRecord] using h
      have hk : decodeKind b = none := by
        have h0 : ¬ b.toNat = 0 := by omega
        have h1 : ¬ b.toNat = 1 := by omega
        have h2 : ¬ b.toNat = 2 := by omega
        have h3 : ¬ b.toNat = 3 := by omega
        simp [decodeKind, h0, h1, h2, h3]
      simp [decode, hk]
  have hf : ∀ (p : Bool) (eff : SessionEffects),
      dispatchFrame p eff (.binary bs) = .error (.decodeFail .malformed) := by
    intro p eff
    simp [dispatchFrame, hd]
  refine ⟨hd, fun p eff rest => ?_, fun t p rest => ?_⟩
  · simp [dispatchLoop, hf]
  · rw [attachRun_result_eq]
    simp [dispatchLoop, hf]

/-- Claim C6 witness: the one-byte sequence with tag 9 is not well-formed
and decode rejects it. -/
theorem c6_decode_error_is_fatal_witness :
    wellFormedRecord [9] = false ∧ decode [9] = .error .malformed :=
  ⟨by decide, (c6_decode_error_is_fatal [9] (by decide)).1⟩

/-- Claim C7 counterexample: the claim states that the Pong reply is
delivered by enqueueing it into the queue of the Outbound Relay. In the
execution with one inbound Ping and no keystrokes or ticks, the only
write of the whole session is the Pong, and the component performing it
is the dispatcher (directly on its own clone of the sink, vm.rs:384-387),
not the relay; the dispatcher remains running. -/
theorem c7_pong_bypasses_queue :
    sessionWrites 0 [] none true [.ok (.ping [80])]
      = [(.dispatcher, .pong [80])] ∧
    Component.dispatcher ≠ Component.relay ∧
    (dispatchLoop true effectsInit [.ok (.ping [80])]).2 = none := by decide

/-- Claim C7 amended: on an inbound Ping with payload P the dispatcher
writes exactly one Pong carrying P directly on its clone of the sink
(appending it to its sink writes) and continues its loop with the
remaining frames. -/
theorem c7_pong_sent_directly (eff : SessionEffects) (P : Bytes)
    (rest : List (Except TransportError Frame)) :
    dispatchLoop true eff (.ok (.ping P) :: rest)
      = dispatchLoop true
          { eff with sinkWrites := eff.sinkWrites ++ [.pong P] } rest ∧
    (dispatchLoop true eff [.ok (.ping P)]).1.sinkWrites
      = eff.sinkWrites ++ [.pong P] :=
  ⟨rfl, rfl⟩

/-- Claim C8 counterexample: the claim states that a receive error
accompanied by an explicit error payload makes attach return a fatal
Transport-Read error. The code breaks out of the loop on every receive
error (vm.rs:389) without inspecting it: with an inbound receive error
carrying the payload "B", attach restores the terminal and returns
success. -/
theorem c8_error_payload_still_graceful :
    (attachRun termiosSample true [.error ⟨some [66]⟩]).result = none ∧
    (attachRun termiosSample true [.error ⟨some [66]⟩]).tcsetattrCalls
      = [applyRawMode termiosSample, termiosSample] := by decide

/-- Claim C8 amended: every receive error, with or without a payload, ends
the dispatcher loop as a graceful close, and attach returns success. -/
theorem c8_all_receive_errors_graceful (t : Termios) (p : Bool)
    (e : TransportError) (eff : SessionEffects)
    (rest : List (Except TransportError Frame)) :
    dispatchLoop p eff (.error e :: rest) = (eff, none) ∧
    (attachRun t p (.error e :: rest)).result = none := by
  refine ⟨rfl, ?_⟩
  rw [attachRun_result_eq]
  rfl

/-- Claim C9: for any initial terminal configuration, capturing the
snapshot, applying the raw-mode transformation and then restoring the
snapshot yields a configuration bit-identical to the captured one: on
any gracefully ending session the configurations applied via `tcsetattr`
are exactly the raw-mode one followed by the full original — every
attribute restored verbatim, for arbitrary values of all attributes. -/
theorem c9_snapshot_roundtrip (t : Termios) (p : Bool)
    (fs : List (Except TransportError Frame))
    (h : (dispatchLoop p effectsInit fs).2 = none) :
    (attachRun t p fs).tcsetattrCalls = [applyRawMode t, t] ∧
    (attachRun t p fs).tcsetattrCalls.getLast? = some t := by
  unfold attachRun
  rcases hd : dispatchLoop p effectsInit fs with ⟨eff, err⟩
  rw [hd] at h
  simp only at h
  subst h
  simp

/-- Claim C9 witness: the empty inbound stream ends gracefully and the
sample configuration is restored verbatim. -/
theorem c9_snapshot_roundtrip_witness :
    (dispatchLoop true effectsInit []).2 = none ∧
    (attachRun termiosSample true []).tcsetattrCalls
      = [applyRawMode termiosSample, termiosSample] :=
  ⟨rfl, (c9_snapshot_roundtrip termiosSample true [] rfl).1⟩

/-- Claim C10: for every byte that is not valid UTF-8 on its own (all of
0x80-0xFF), one iteration of the input-reader thread panics on the
`unwrap` of the str conversion (vm.rs:340), rather than stopping the
component the way a failed stdin read does. -/
theorem c10_reader_panics_on_non_utf8 (b : UInt8) (h : 0x80 ≤ b.toNat) :
    readerIter (some b) = .panicked ∧ readerIter (some b) ≠ .stopped := by
  have hu : utf8DecodeByte b = none := by
    have hb : ¬ b.toNat < 0x80 := by omega
    simp [utf8DecodeByte, hb]
  refine ⟨?_, ?_⟩ <;> simp [readerIter, hu]

/-- Claim C10 witness: the byte 0x80 is not valid UTF-8 on its own and the
reader iteration panics on it. -/
theorem c10_reader_panics_on_non_utf8_witness :
    0x80 ≤ (128 : UInt8).toNat ∧ readerIter (some 128) = .panicked :=
  ⟨by decide, (c10_reader_panics_on_non_utf8 128 (by decide)).1⟩

end Nanocl
